import Mathlib

/-!
Verification of the deal-economics core of a real-estate wholesaling CRUD
backend (src/backend/server.py).

Numeric modelling: the Python source computes with binary floating point; we
embed the arithmetic over the exact rationals, so each formula the code
evaluates is represented exactly.  Python literal 0.70 is the rational 7/10.
Python round(x, 2) (round half to even at 2 decimal places) is modelled by
round2 below.  The document store is modelled by explicit lists of records;
Mongo update_one updates the first matching document and find_one returns
the first matching document, which updateFirstDeal / findFirstDeal mirror.
-/

namespace Wholesaling

/-- LeadStage enum (server.py lines 42-48). -/
inductive LeadStage where
  | raw | warm | hot | deal | dnc | dead
deriving DecidableEq, Repr

/-- DealStatus enum (server.py lines 50-55). -/
inductive DealStatus where
  | under_contract | in_disposition | closing | closed | dead
deriving DecidableEq, Repr

/-- Round to the nearest integer, ties to even, as Python round does on exact
values. -/
def roundHalfEven (q : ℚ) : ℤ :=
  if q - ⌊q⌋ < 1/2 then ⌊q⌋
  else if 1/2 < q - ⌊q⌋ then ⌊q⌋ + 1
  else if ⌊q⌋ % 2 = 0 then ⌊q⌋ else ⌊q⌋ + 1

/-- Python round(x, 2): round to 2 decimal places, ties to even. -/
def round2 (q : ℚ) : ℚ := (roundHalfEven (q * 100) : ℚ) / 100

/-- Python dict.get(key, default) over an association-list model of the JSON
body Dict[str, float]. -/
def dictGet (data : List (String × ℚ)) (k : String) (d : ℚ) : ℚ :=
  match data.find? (fun p => decide (p.1 = k)) with
  | some p => p.2
  | none => d

/-- POST /api/calculator/mao (server.py lines 607-623).  Reads arv,
rehab_estimate, assignment_fee from the request body with defaults 0, 0,
10000, computes mao and profit_at_mao, and returns the six-key response with
the three derived values rounded to 2 decimals. -/
def calculate_mao (data : List (String × ℚ)) : List (String × ℚ) :=
  let arv := dictGet data "arv" 0
  let rehab := dictGet data "rehab_estimate" 0
  let assignment_fee := dictGet data "assignment_fee" 10000
  let mao := (arv * (7/10)) - rehab - assignment_fee
  let profit_at_mao := arv - mao - rehab - assignment_fee
  [ ("arv", arv),
    ("rehab_estimate", rehab),
    ("assignment_fee", assignment_fee),
    ("max_allowable_offer", round2 mao),
    ("profit_at_mao", round2 profit_at_mao),
    ("seventy_percent_arv", round2 (arv * (7/10))) ]

/-- Lead model (server.py lines 79-107). -/
structure Lead where
  id : String
  property_address : String
  city : String
  county : String
  zip_code : String
  owner_name : String
  phone_1 : String
  phone_2 : Option String := none
  phone_3 : Option String := none
  data_source : String
  motivation_score : ℤ := 0
  asking_price : Option ℚ := none
  property_type : String := "single_family"
  bedrooms : Option ℤ := none
  bathrooms : Option ℚ := none
  sqft : Option ℤ := none
  condition : String := "unknown"
  is_vacant : Bool := false
  has_mortgage : Bool := true
  mortgage_balance : Option ℚ := none
  stage : LeadStage := LeadStage.raw
  assigned_agent : Option String := none
  do_not_call : Bool := false
  total_attempts : ℤ := 0
  last_called_at : Option String := none
  notes : Option String := none
  created_at : String
deriving DecidableEq, Repr

/-- Deal model (server.py lines 139-158). -/
structure Deal where
  id : String
  lead_id : String
  property_address : String
  arv : ℚ
  rehab_estimate : ℚ
  contract_price : ℚ
  assignment_fee : ℚ := 10000
  max_allowable_offer : ℚ := 0
  profit_estimate : ℚ := 0
  status : DealStatus := DealStatus.under_contract
  contract_signed_date : Option String := none
  closing_date : Option String := none
  buyer_id : Option String := none
  buyer_name : Option String := none
  title_company : Option String := none
  earnest_money : ℚ := 0
  notes : Option String := none
  created_at : String
deriving DecidableEq, Repr

/-- DealCreate request model (server.py lines 160-171). -/
structure DealCreate where
  lead_id : String
  property_address : String
  arv : ℚ
  rehab_estimate : ℚ
  contract_price : ℚ
  assignment_fee : ℚ := 10000
  contract_signed_date : Option String := none
  closing_date : Option String := none
  title_company : Option String := none
  earnest_money : ℚ := 0
  notes : Option String := none
deriving DecidableEq, Repr

/-- Pydantic boundary for DealCreate: a request body may omit assignment_fee
(default 10000) and earnest_money (default 0); omitted optional strings stay
none. -/
def DealCreate.ofRequest (lead_id property_address : String)
    (arv rehab_estimate contract_price : ℚ) (assignment_fee : Option ℚ)
    (contract_signed_date closing_date title_company : Option String)
    (earnest_money : Option ℚ) (notes : Option String) : DealCreate :=
  { lead_id := lead_id
    property_address := property_address
    arv := arv
    rehab_estimate := rehab_estimate
    contract_price := contract_price
    assignment_fee := assignment_fee.getD 10000
    contract_signed_date := contract_signed_date
    closing_date := closing_date
    title_company := title_company
    earnest_money := earnest_money.getD 0
    notes := notes }

/-- DealUpdate request model (server.py lines 173-178): every field optional;
absent fields are excluded from the Mongo $set. -/
structure DealUpdate where
  status : Option DealStatus := none
  buyer_id : Option String := none
  buyer_name : Option String := none
  closing_date : Option String := none
  notes : Option String := none
deriving DecidableEq, Repr

/-- True when every field of the update is None, i.e. the $set document built
by update_deal would be empty (server.py line 426-428). -/
def DealUpdate.isEmpty (u : DealUpdate) : Bool :=
  u.status.isNone && u.buyer_id.isNone && u.buyer_name.isNone
    && u.closing_date.isNone && u.notes.isNone

/-- Effect of the $set document of update_deal on one stored deal: only the
provided (non-None) fields are overwritten. -/
def applyDealUpdate (u : DealUpdate) (d : Deal) : Deal :=
  { d with
    status := u.status.getD d.status
    buyer_id := match u.buyer_id with | some v => some v | none => d.buyer_id
    buyer_name := match u.buyer_name with | some v => some v | none => d.buyer_name
    closing_date := match u.closing_date with | some v => some v | none => d.closing_date
    notes := match u.notes with | some v => some v | none => d.notes }

/-- The two Mongo collections the deal routes touch. -/
structure ServerState where
  leads : List Lead
  deals : List Deal
deriving DecidableEq, Repr

/-- Mongo update_one on db.deals: rewrites the first document whose id field
matches, returning the new list and the matched count (0 or 1). -/
def updateFirstDeal (deals : List Deal) (deal_id : String) (f : Deal → Deal) :
    List Deal × ℕ :=
  match deals with
  | [] => ([], 0)
  | d :: rest =>
    if d.id = deal_id then (f d :: rest, 1)
    else ((d :: (updateFirstDeal rest deal_id f).1),
      (updateFirstDeal rest deal_id f).2)

/-- Mongo find_one on db.deals: first document whose id field matches. -/
def findFirstDeal (deals : List Deal) (deal_id : String) : Option Deal :=
  deals.find? (fun d => decide (d.id = deal_id))

/-- Mongo update_one on db.leads with $set stage: "deal" (server.py
line 420): rewrites the first lead whose id matches. -/
def updateFirstLead (leads : List Lead) (lead_id : String) :
    List Lead × ℕ :=
  match leads with
  | [] => ([], 0)
  | l :: rest =>
    if l.id = lead_id then ({ l with stage := LeadStage.deal } :: rest, 1)
    else ((l :: (updateFirstLead rest lead_id).1),
      (updateFirstLead rest lead_id).2)

/-- POST /api/deals (server.py lines 406-422): computes mao and profit from
the request, builds the Deal record (fresh id and created_at supplied by the
caller of the model), inserts it, sets the stage of the lead with the given
lead_id to "deal", and returns the deal. -/
def create_deal (st : ServerState) (deal_data : DealCreate)
    (gen_id gen_created_at : String) : ServerState × Deal :=
  let mao := (deal_data.arv * (7/10)) - deal_data.rehab_estimate
      - deal_data.assignment_fee
  let profit := deal_data.arv - deal_data.contract_price
      - deal_data.rehab_estimate - deal_data.assignment_fee
  let deal : Deal :=
    { id := gen_id
      lead_id := deal_data.lead_id
      property_address := deal_data.property_address
      arv := deal_data.arv
      rehab_estimate := deal_data.rehab_estimate
      contract_price := deal_data.contract_price
      assignment_fee := deal_data.assignment_fee
      max_allowable_offer := mao
      profit_estimate := profit
      contract_signed_date := deal_data.contract_signed_date
      closing_date := deal_data.closing_date
      title_company := deal_data.title_company
      earnest_money := deal_data.earnest_money
      notes := deal_data.notes
      created_at := gen_created_at }
  ({ leads := (updateFirstLead st.leads deal_data.lead_id).1
     deals := st.deals ++ [deal] }, deal)

/-- HTTP error outcomes of PATCH /api/deals (400, 404). -/
inductive ApiError where
  | badRequest | notFound
deriving DecidableEq, Repr

/-- PATCH /api/deals/deal_id (server.py lines 424-434): 400 when the update
carries no field, 404 when no deal matches, otherwise applies the $set to the
first matching deal and returns the state plus the re-fetched deal. -/
def update_deal (st : ServerState) (deal_id : String) (update : DealUpdate) :
    Except ApiError (ServerState × Option Deal) :=
  if update.isEmpty then .error .badRequest
  else if (updateFirstDeal st.deals deal_id (applyDealUpdate update)).2 = 0 then
    .error .notFound
  else
    .ok ({ st with
            deals := (updateFirstDeal st.deals deal_id
              (applyDealUpdate update)).1 },
      findFirstDeal
        (updateFirstDeal st.deals deal_id (applyDealUpdate update)).1 deal_id)

/-- One PATCH /api/deals request against a state; an error response leaves
the store unchanged. -/
def applyUpdateOp (st : ServerState) (op : String × DealUpdate) : ServerState :=
  match update_deal st op.1 op.2 with
  | .ok q => q.1
  | .error _ => st

/-- A sequence of PATCH /api/deals requests. -/
def runDealUpdates (st : ServerState) (ops : List (String × DealUpdate)) :
    ServerState :=
  ops.foldl applyUpdateOp st

/-- A concrete lead used to instantiate the theorems below. -/
def sampleLead : Lead :=
  { id := "lead-1", property_address := "1234 Main St", city := "Houston",
    county := "Harris", zip_code := "77001", owner_name := "John Smith",
    phone_1 := "+17135551234", data_source := "tax_delinquent",
    created_at := "2026-01-01T00:00:00" }

/-- A concrete deal-creation request used to instantiate the theorems below. -/
def sampleDealCreate : DealCreate :=
  { lead_id := "lead-1", property_address := "1234 Main St",
    arv := 200000, rehab_estimate := 35000, contract_price := 90000 }

/-- A concrete stored deal used to instantiate the theorems below. -/
def sampleDeal : Deal :=
  { id := "deal-1", lead_id := "lead-1", property_address := "1234 Main St",
    arv := 200000, rehab_estimate := 35000, contract_price := 90000,
    max_allowable_offer := 95000, profit_estimate := 65000,
    created_at := "2026-01-01T00:00:00" }

/-- A concrete store with one lead and one deal. -/
def sampleState : ServerState := { leads := [sampleLead], deals := [sampleDeal] }

/-! Basic properties of the rounding helper. -/

/-- Rounding half to even moves a rational by at most 1/2. -/
theorem abs_roundHalfEven_sub_le (q : ℚ) : |(roundHalfEven q : ℚ) - q| ≤ 1/2 := by
  have h1 : (⌊q⌋ : ℚ) ≤ q := Int.floor_le q
  have h2 : q < ⌊q⌋ + 1 := Int.lt_floor_add_one q
  unfold roundHalfEven
  split_ifs with ha hb hc <;> rw [abs_le] <;> push_cast <;>
    constructor <;> linarith

/-- Rounding to 2 decimal places moves a rational by at most 1/200 = 0.005. -/
theorem abs_round2_sub_le (q : ℚ) : |round2 q - q| ≤ 1/200 := by
  have h := abs_roundHalfEven_sub_le (q * 100)
  rw [abs_le] at h ⊢
  unfold round2
  constructor <;> [linarith [h.1]; linarith [h.2]]

/-- The result of round2 is an exact multiple of 1/100. -/
theorem round2_two_decimals (q : ℚ) :
    ∃ n : ℤ, round2 q * 100 = (n : ℚ) := by
  refine ⟨roundHalfEven (q * 100), ?_⟩
  unfold round2
  field_simp

/-- C1: for non-negative arv, rehab and fee, the maximum allowable offer is
0.70 * arv - rehab - fee, exactly, both as stored by the deal-creation flow
and as computed (then rounded to 2 decimals for the response) by the
standalone calculator. -/
theorem mao_formula_correct (st : ServerState) (data : DealCreate)
    (gid ts : String) (_h1 : 0 ≤ data.arv) (_h2 : 0 ≤ data.rehab_estimate)
    (_h3 : 0 ≤ data.assignment_fee) :
    (create_deal st data gid ts).2.max_allowable_offer
      = (7/10) * data.arv - data.rehab_estimate - data.assignment_fee
    ∧ ((calculate_mao [("arv", data.arv),
          ("rehab_estimate", data.rehab_estimate),
          ("assignment_fee", data.assignment_fee)]).find?
          (fun p => decide (p.1 = "max_allowable_offer")))
      = some ("max_allowable_offer",
          round2 ((7/10) * data.arv - data.rehab_estimate
            - data.assignment_fee)) := by
  have e : (7/10) * data.arv - data.rehab_estimate - data.assignment_fee
      = (data.arv * (7/10)) - data.rehab_estimate - data.assignment_fee := by
    ring
  exact ⟨by rw [e]; rfl, by rw [e]; rfl⟩

/-- Witness for C1 at scenario 1 of the spec: arv 200000, rehab 35000, fee
10000 gives MAO 95000. -/
theorem mao_formula_correct_witness :
    (0 ≤ sampleDealCreate.arv ∧ 0 ≤ sampleDealCreate.rehab_estimate
      ∧ 0 ≤ sampleDealCreate.assignment_fee)
    ∧ (create_deal sampleState sampleDealCreate "deal-2" "2026-01-02").2.max_allowable_offer
      = (7/10) * sampleDealCreate.arv - sampleDealCreate.rehab_estimate
        - sampleDealCreate.assignment_fee :=
  ⟨⟨by norm_num [sampleDealCreate], by norm_num [sampleDealCreate],
      by norm_num [sampleDealCreate]⟩,
    (mao_formula_correct sampleState sampleDealCreate "deal-2" "2026-01-02"
      (by norm_num [sampleDealCreate]) (by norm_num [sampleDealCreate])
      (by norm_num [sampleDealCreate])).1⟩

/-- C2: for non-negative inputs, profit_at_mao, computed by the calculator as
arv - mao - rehab - fee with mao = 0.70 * arv - rehab - fee, equals
0.30 * arv exactly, independent of rehab and fee; the response carries its
2-decimal rounding. -/
theorem profit_at_mao_identity (arv rehab fee : ℚ) (_h1 : 0 ≤ arv)
    (_h2 : 0 ≤ rehab) (_h3 : 0 ≤ fee) :
    arv - ((arv * (7/10)) - rehab - fee) - rehab - fee = (3/10) * arv
    ∧ ((calculate_mao [("arv", arv), ("rehab_estimate", rehab),
        ("assignment_fee", fee)]).find?
        (fun p => decide (p.1 = "profit_at_mao")))
      = some ("profit_at_mao", round2 ((3/10) * arv)) := by
  have e : (3/10) * arv
      = arv - ((arv * (7/10)) - rehab - fee) - rehab - fee := by ring
  exact ⟨e.symm, by rw [e]; rfl⟩

/-- Witness for C2 at arv 200000, rehab 35000, fee 10000: profit_at_mao is
0.30 * 200000 = 60000. -/
theorem profit_at_mao_identity_witness :
    ((0:ℚ) ≤ 200000 ∧ (0:ℚ) ≤ 35000 ∧ (0:ℚ) ≤ 10000)
    ∧ ((calculate_mao [("arv", 200000), ("rehab_estimate", 35000),
        ("assignment_fee", 10000)]).find?
        (fun p => decide (p.1 = "profit_at_mao")))
      = some ("profit_at_mao", round2 ((3/10) * 200000)) :=
  ⟨⟨by norm_num, by norm_num, by norm_num⟩,
    (profit_at_mao_identity 200000 35000 10000 (by norm_num) (by norm_num)
      (by norm_num)).2⟩

/-- C4: the profit_estimate stored at deal creation is
arv - contract_price - rehab_estimate - assignment_fee. -/
theorem profit_estimate_formula (st : ServerState) (data : DealCreate)
    (gid ts : String) :
    (create_deal st data gid ts).2.profit_estimate
      = data.arv - data.contract_price - data.rehab_estimate
        - data.assignment_fee := rfl

/-- C7: the calculator is a total function: for every rational arv, rehab and
fee, including negative values, it returns the full response with
max_allowable_offer = round2 (arv * 0.70 - rehab - fee); in particular at
arv = 0, rehab = 0, fee = 10000 it returns -10000.00 rather than an error. -/
theorem calculator_total_negative_ok (arv rehab fee : ℚ) :
    ((calculate_mao [("arv", arv), ("rehab_estimate", rehab),
        ("assignment_fee", fee)]).find?
        (fun p => decide (p.1 = "max_allowable_offer")))
      = some ("max_allowable_offer", round2 ((arv * (7/10)) - rehab - fee))
    ∧ ((calculate_mao [("arv", 0), ("rehab_estimate", 0),
        ("assignment_fee", 10000)]).find?
        (fun p => decide (p.1 = "max_allowable_offer")))
      = some ("max_allowable_offer", -10000) := by
  refine ⟨rfl, ?_⟩
  have e : round2 (((0:ℚ) * (7/10)) - 0 - 10000) = -10000 := by
    norm_num [round2, roundHalfEven]
  calc ((calculate_mao [("arv", 0), ("rehab_estimate", 0),
        ("assignment_fee", 10000)]).find?
        (fun p => decide (p.1 = "max_allowable_offer")))
      = some ("max_allowable_offer",
          round2 (((0:ℚ) * (7/10)) - 0 - 10000)) := rfl
    _ = some ("max_allowable_offer", -10000) := by rw [e]

/-- C8: profit_estimate is linear and antitone in contract_price: raising the
contract price by inc lowers the stored profit by exactly inc. -/
theorem profit_antitone_contract_price (st : ServerState) (data : DealCreate)
    (gid ts : String) (inc : ℚ) :
    (create_deal st { data with contract_price := data.contract_price + inc }
        gid ts).2.profit_estimate
      = (create_deal st data gid ts).2.profit_estimate - inc := by
  show data.arv - (data.contract_price + inc) - data.rehab_estimate
        - data.assignment_fee
      = (data.arv - data.contract_price - data.rehab_estimate
        - data.assignment_fee) - inc
  ring

/-! Frame lemmas: deal updates never touch the creation-time snapshot
fields max_allowable_offer and profit_estimate. -/

/-- Applying a DealUpdate leaves the snapshot fields unchanged. -/
theorem applyDealUpdate_snapshot (u : DealUpdate) (d : Deal) :
    ((applyDealUpdate u d).max_allowable_offer,
      (applyDealUpdate u d).profit_estimate)
      = (d.max_allowable_offer, d.profit_estimate) := rfl

/-- Updating the first matching deal preserves the snapshot fields of every
position of the list, provided the per-deal effect does. -/
theorem updateFirstDeal_snapshot (deal_id : String) (f : Deal → Deal)
    (hf : ∀ d, ((f d).max_allowable_offer, (f d).profit_estimate)
      = (d.max_allowable_offer, d.profit_estimate))
    (deals : List Deal) : ∀ i : ℕ,
      ((updateFirstDeal deals deal_id f).1)[i]?.map
        (fun d => (d.max_allowable_offer, d.profit_estimate))
      = deals[i]?.map
        (fun d => (d.max_allowable_offer, d.profit_estimate)) := by
  induction deals with
  | nil => intro i; rfl
  | cons d rest ih =>
    intro i
    unfold updateFirstDeal
    split_ifs with h
    · cases i with
      | zero => simpa using hf d
      | succ j => simp
    · cases i with
      | zero => simp
      | succ j => simpa using ih j

/-- A successful PATCH /api/deals response preserves the snapshot fields of
every stored deal. -/
theorem update_deal_snapshot (st : ServerState) (deal_id : String)
    (u : DealUpdate) (st2 : ServerState) (od : Option Deal)
    (h : update_deal st deal_id u = .ok (st2, od)) (i : ℕ) :
    st2.deals[i]?.map (fun d => (d.max_allowable_offer, d.profit_estimate))
      = st.deals[i]?.map
        (fun d => (d.max_allowable_offer, d.profit_estimate)) := by
  unfold update_deal at h
  split_ifs at h
  simp only [Except.ok.injEq, Prod.mk.injEq] at h
  obtain ⟨h1, h2⟩ := h
  subst h1
  exact updateFirstDeal_snapshot deal_id (applyDealUpdate u)
    (fun d => rfl) st.deals i

/-- One PATCH request (successful or not) preserves the snapshot fields. -/
theorem applyUpdateOp_snapshot (st : ServerState) (op : String × DealUpdate)
    (i : ℕ) :
    (applyUpdateOp st op).deals[i]?.map
      (fun d => (d.max_allowable_offer, d.profit_estimate))
      = st.deals[i]?.map
        (fun d => (d.max_allowable_offer, d.profit_estimate)) := by
  unfold applyUpdateOp
  cases hu : update_deal st op.1 op.2 with
  | error e => rfl
  | ok q => exact update_deal_snapshot st op.1 op.2 q.1 q.2 (by rw [hu]) i

/-- Any sequence of PATCH requests preserves the snapshot fields. -/
theorem runDealUpdates_snapshot (ops : List (String × DealUpdate)) :
    ∀ (st : ServerState) (i : ℕ),
      (runDealUpdates st ops).deals[i]?.map
        (fun d => (d.max_allowable_offer, d.profit_estimate))
      = st.deals[i]?.map
        (fun d => (d.max_allowable_offer, d.profit_estimate)) := by
  induction ops with
  | nil => intro st i; rfl
  | cons op rest ih =>
    intro st i
    unfold runDealUpdates at ih ⊢
    simp only [List.foldl_cons]
    rw [ih (applyUpdateOp st op) i, applyUpdateOp_snapshot]

/-- C3: max_allowable_offer and profit_estimate are computed by the exact
formulas at creation time, and no sequence of deal updates ever changes the
snapshot stored at any position of the deals collection. -/
theorem derived_fields_frozen (st : ServerState) (data : DealCreate)
    (gid ts : String) (st0 : ServerState)
    (ops : List (String × DealUpdate)) (i : ℕ) :
    ((create_deal st data gid ts).2.max_allowable_offer
        = (7/10) * data.arv - data.rehab_estimate - data.assignment_fee
      ∧ (create_deal st data gid ts).2.profit_estimate
        = data.arv - data.contract_price - data.rehab_estimate
          - data.assignment_fee)
    ∧ (runDealUpdates st0 ops).deals[i]?.map
        (fun d => (d.max_allowable_offer, d.profit_estimate))
      = st0.deals[i]?.map
        (fun d => (d.max_allowable_offer, d.profit_estimate)) := by
  have e : (7/10) * data.arv - data.rehab_estimate - data.assignment_fee
      = (data.arv * (7/10)) - data.rehab_estimate - data.assignment_fee := by
    ring
  exact ⟨⟨by rw [e]; rfl, rfl⟩, runDealUpdates_snapshot ops st0 i⟩

/-- C5: for every request body, the calculator response has exactly the six
keys in order, echoes the three inputs unrounded, and carries the three
derived values as the exact core computation rounded to 2 decimal places;
round2 is a genuine 2-decimal rounding: it moves a value by at most 0.005
and always lands on a multiple of 1/100. -/
theorem calculator_response_shape (data : List (String × ℚ)) :
    (calculate_mao data).map Prod.fst
      = ["arv", "rehab_estimate", "assignment_fee", "max_allowable_offer",
         "profit_at_mao", "seventy_percent_arv"]
    ∧ calculate_mao data
      = [("arv", dictGet data "arv" 0),
         ("rehab_estimate", dictGet data "rehab_estimate" 0),
         ("assignment_fee", dictGet data "assignment_fee" 10000),
         ("max_allowable_offer",
           round2 ((dictGet data "arv" 0 * (7/10))
             - dictGet data "rehab_estimate" 0
             - dictGet data "assignment_fee" 10000)),
         ("profit_at_mao",
           round2 (dictGet data "arv" 0
             - ((dictGet data "arv" 0 * (7/10))
               - dictGet data "rehab_estimate" 0
               - dictGet data "assignment_fee" 10000)
             - dictGet data "rehab_estimate" 0
             - dictGet data "assignment_fee" 10000)),
         ("seventy_percent_arv", round2 (dictGet data "arv" 0 * (7/10)))]
    ∧ (∀ q : ℚ, |round2 q - q| ≤ 1/200)
    ∧ (∀ q : ℚ, ∃ n : ℤ, round2 q * 100 = (n : ℚ)) :=
  ⟨rfl, rfl, abs_round2_sub_le, round2_two_decimals⟩

/-- C6: an absent arv is read as 0, an absent rehab_estimate as 0, an absent
assignment_fee as 10000 by the calculator, and a deal-creation request that
omits assignment_fee gets the default 10000; none of these is an error. -/
theorem missing_inputs_defaults (data : List (String × ℚ))
    (lid pa : String) (arv rehab cp : ℚ) (csd cd tc : Option String)
    (em : Option ℚ) (nts : Option String) :
    (data.find? (fun p => decide (p.1 = "arv")) = none →
      (calculate_mao data).find? (fun p => decide (p.1 = "arv"))
        = some ("arv", 0))
    ∧ (data.find? (fun p => decide (p.1 = "rehab_estimate")) = none →
      (calculate_mao data).find? (fun p => decide (p.1 = "rehab_estimate"))
        = some ("rehab_estimate", 0))
    ∧ (data.find? (fun p => decide (p.1 = "assignment_fee")) = none →
      (calculate_mao data).find? (fun p => decide (p.1 = "assignment_fee"))
        = some ("assignment_fee", 10000))
    ∧ (DealCreate.ofRequest lid pa arv rehab cp none csd cd tc em
        nts).assignment_fee = 10000 := by
  refine ⟨?_, ?_, ?_, rfl⟩
  · intro h
    show some ("arv", dictGet data "arv" 0) = some ("arv", 0)
    unfold dictGet
    rw [h]
  · intro h
    show some ("rehab_estimate", dictGet data "rehab_estimate" 0)
      = some ("rehab_estimate", 0)
    unfold dictGet
    rw [h]
  · intro h
    show some ("assignment_fee", dictGet data "assignment_fee" 10000)
      = some ("assignment_fee", 10000)
    unfold dictGet
    rw [h]

/-- Witness for C6: the empty request body yields the three defaults, and an
omitted assignment_fee on deal creation is 10000. -/
theorem missing_inputs_defaults_witness :
    (([] : List (String × ℚ)).find?
        (fun p => decide (p.1 = "assignment_fee")) = none)
    ∧ (calculate_mao []).find? (fun p => decide (p.1 = "assignment_fee"))
      = some ("assignment_fee", 10000) :=
  ⟨rfl,
    (missing_inputs_defaults [] "lead-1" "1234 Main St" 0 0 0 none none none
      none none).2.2.1 rfl⟩

/-! Lemmas about updating the first matching document. -/

/-- find? keeps a head that satisfies the predicate. -/
theorem find_cons_true {α : Type} (p : α → Bool) (a : α) (l : List α)
    (h : p a = true) : List.find? p (a :: l) = some a := by
  simp [List.find?, h]

/-- find? skips a head that fails the predicate. -/
theorem find_cons_false {α : Type} (p : α → Bool) (a : α) (l : List α)
    (h : p a = false) : List.find? p (a :: l) = List.find? p l := by
  simp [List.find?, h]

/-- When some stored deal matches, update_one reports one match and the
subsequent find_one returns the updated first match. -/
theorem updateFirstDeal_find (deal_id : String) (f : Deal → Deal)
    (hid : ∀ d, (f d).id = d.id) (deals : List Deal)
    (h : ∃ d ∈ deals, d.id = deal_id) :
    (updateFirstDeal deals deal_id f).2 = 1
    ∧ ∃ d0 ∈ deals, d0.id = deal_id
        ∧ findFirstDeal (updateFirstDeal deals deal_id f).1 deal_id
          = some (f d0) := by
  induction deals with
  | nil => obtain ⟨d, hd, _⟩ := h; cases hd
  | cons d rest ih =>
    by_cases hd : d.id = deal_id
    · refine ⟨?_, d, List.mem_cons_self d rest, hd, ?_⟩
      · unfold updateFirstDeal; rw [if_pos hd]
      · unfold updateFirstDeal
        rw [if_pos hd]
        show List.find? (fun x => decide (x.id = deal_id)) (f d :: rest)
          = some (f d)
        exact find_cons_true (fun x => decide (x.id = deal_id)) (f d) rest
          (by simp [hid d, hd])
    · have h' : ∃ x ∈ rest, x.id = deal_id := by
        obtain ⟨x, hx, hxid⟩ := h
        cases List.mem_cons.mp hx with
        | inl e => rw [e] at hxid; exact absurd hxid hd
        | inr hr => exact ⟨x, hr, hxid⟩
      obtain ⟨hc, d0, hd0, hd0id, hfind⟩ := ih h'
      refine ⟨?_, d0, List.mem_cons_of_mem _ hd0, hd0id, ?_⟩
      · unfold updateFirstDeal; rw [if_neg hd]; exact hc
      · unfold updateFirstDeal
        rw [if_neg hd]
        show List.find? (fun x => decide (x.id = deal_id))
            (d :: (updateFirstDeal rest deal_id f).1) = some (f d0)
        rw [find_cons_false (fun x : Deal => decide (x.id = deal_id)) d
          ((updateFirstDeal rest deal_id f).1) (by simp [hd])]
        exact hfind

/-- C9: status transitions are free: for any stored deal and any target
status, a direct PATCH with that status succeeds (no state-machine check)
and the returned deal carries the target status. -/
theorem status_transitions_free (st : ServerState) (deal_id : String)
    (target : DealStatus) (h : ∃ d ∈ st.deals, d.id = deal_id) :
    ∃ st2 found,
      update_deal st deal_id { status := some target } = .ok (st2, some found)
      ∧ found.status = target ∧ found.id = deal_id := by
  have hid : ∀ d, (applyDealUpdate { status := some target } d).id = d.id :=
    fun d => rfl
  obtain ⟨hc, d0, hd0, hd0id, hfind⟩ :=
    updateFirstDeal_find deal_id (applyDealUpdate { status := some target })
      hid st.deals h
  refine ⟨{ st with
      deals := (updateFirstDeal st.deals deal_id
        (applyDealUpdate { status := some target })).1 },
    applyDealUpdate { status := some target } d0, ?_, rfl, ?_⟩
  · unfold update_deal
    rw [if_neg (by simp [DealUpdate.isEmpty]), if_neg (by rw [hc]; norm_num),
      hfind]
  · exact (hid d0).trans hd0id

/-- Witness for C9: moving the sample deal straight to closed succeeds. -/
theorem status_transitions_free_witness :
    (∃ d ∈ sampleState.deals, d.id = "deal-1")
    ∧ ∃ st2 found,
        update_deal sampleState "deal-1" { status := some DealStatus.closed }
          = .ok (st2, some found)
        ∧ found.status = DealStatus.closed ∧ found.id = "deal-1" :=
  ⟨⟨sampleDeal, by simp [sampleState], rfl⟩,
    status_transitions_free sampleState "deal-1" DealStatus.closed
      ⟨sampleDeal, by simp [sampleState], rfl⟩⟩

/-- Setting the stage of the first matching lead preserves the length of the
collection. -/
theorem updateFirstLead_length (lead_id : String) (leads : List Lead) :
    (updateFirstLead leads lead_id).1.length = leads.length := by
  induction leads with
  | nil => rfl
  | cons l rest ih =>
    unfold updateFirstLead
    split_ifs <;> simp [ih]

/-- Pointwise effect of the lead-stage update: each stored lead is either
untouched, or matches the id and only its stage changed (to deal). -/
theorem updateFirstLead_getElem (lead_id : String) (leads : List Lead) :
    ∀ (i : ℕ) (l : Lead), leads[i]? = some l →
      ∃ l', (updateFirstLead leads lead_id).1[i]? = some l'
        ∧ ({ l' with stage := l.stage } : Lead) = l
        ∧ (l' = l ∨ (l.id = lead_id ∧ l'.stage = LeadStage.deal)) := by
  induction leads with
  | nil => intro i l h; simp at h
  | cons a rest ih =>
    intro i l h
    unfold updateFirstLead
    split_ifs with ha
    · cases i with
      | zero =>
        have e : a = l := by simpa using h
        subst e
        exact ⟨{ a with stage := LeadStage.deal }, by simp, rfl,
          Or.inr ⟨ha, rfl⟩⟩
      | succ j =>
        have e : rest[j]? = some l := by simpa using h
        exact ⟨l, by simpa using e, rfl, Or.inl rfl⟩
    · cases i with
      | zero =>
        have e : a = l := by simpa using h
        subst e
        exact ⟨a, by simp, rfl, Or.inl rfl⟩
      | succ j =>
        have e : rest[j]? = some l := by simpa using h
        obtain ⟨l', h1, h2, h3⟩ := ih j l e
        exact ⟨l', by simpa using h1, h2, h3⟩

/-- When a lead with the given id exists, the update leaves a lead with that
id in stage deal. -/
theorem updateFirstLead_sets_stage (lead_id : String) (leads : List Lead)
    (h : ∃ l ∈ leads, l.id = lead_id) :
    ∃ l' ∈ (updateFirstLead leads lead_id).1,
      l'.id = lead_id ∧ l'.stage = LeadStage.deal := by
  induction leads with
  | nil => obtain ⟨l, hl, _⟩ := h; cases hl
  | cons a rest ih =>
    unfold updateFirstLead
    split_ifs with ha
    · exact ⟨{ a with stage := LeadStage.deal },
        List.mem_cons_self _ _, ha, rfl⟩
    · obtain ⟨l, hl, hid⟩ := h
      have hr : l ∈ rest := by
        cases List.mem_cons.mp hl with
        | inl e => rw [e] at hid; exact absurd hid ha
        | inr hr => exact hr
      obtain ⟨l', hl', hid', hst⟩ := ih ⟨l, hr, hid⟩
      exact ⟨l', List.mem_cons_of_mem _ hl', hid', hst⟩

/-- C10 (implicit): creating a deal appends exactly the returned deal to the
deals collection (whether or not the lead exists), and its only effect on
the leads collection is to set the stage of the lead whose id matches
lead_id to deal, every other lead field and every other lead untouched. -/
theorem create_deal_lead_effect (st : ServerState) (data : DealCreate)
    (gid ts : String) :
    (create_deal st data gid ts).1.deals
      = st.deals ++ [(create_deal st data gid ts).2]
    ∧ (create_deal st data gid ts).1.leads.length = st.leads.length
    ∧ (∀ (i : ℕ) (l : Lead), st.leads[i]? = some l →
        ∃ l', (create_deal st data gid ts).1.leads[i]? = some l'
          ∧ ({ l' with stage := l.stage } : Lead) = l
          ∧ (l' = l ∨ (l.id = data.lead_id ∧ l'.stage = LeadStage.deal)))
    ∧ ((∃ l ∈ st.leads, l.id = data.lead_id) →
        ∃ l' ∈ (create_deal st data gid ts).1.leads,
          l'.id = data.lead_id ∧ l'.stage = LeadStage.deal) :=
  ⟨rfl, updateFirstLead_length data.lead_id st.leads,
    fun i l h => updateFirstLead_getElem data.lead_id st.leads i l h,
    fun h => updateFirstLead_sets_stage data.lead_id st.leads h⟩

/-- Witness for C10: creating the sample deal moves the sample lead to stage
deal. -/
theorem create_deal_lead_effect_witness :
    (∃ l ∈ sampleState.leads, l.id = sampleDealCreate.lead_id)
    ∧ ∃ l' ∈ (create_deal sampleState sampleDealCreate "deal-2"
          "2026-01-02").1.leads,
        l'.id = sampleDealCreate.lead_id ∧ l'.stage = LeadStage.deal :=
  ⟨⟨sampleLead, by simp [sampleState], rfl⟩,
    (create_deal_lead_effect sampleState sampleDealCreate "deal-2"
      "2026-01-02").2.2.2 ⟨sampleLead, by simp [sampleState], rfl⟩⟩

end Wholesaling
